import Mathlib

/-!
Formal model of the nalej installer workflow engine: the command contract,
the Try fallback construct, the sequential executor with its install progress
state machine, the workflow parser (comment stripping, JSON decoding through
the command registry, template iteration) and the concrete Kubernetes command
variants found in the repository.

Pure data is embedded directly; effectful steps (network connections,
Kubernetes API calls, the filesystem) are embedded by passing an explicit
environment record describing the outcome of each external interaction, so
that every `Run` implementation becomes a total function of its command value
and that environment.
-/

set_option autoImplicit false
set_option maxRecDepth 10000

namespace Installer

/-- Transport-level errors (Go `derrors.Error`) are modelled by their message. -/
abbrev DError := String

/-- CommandResult mirrors `entities.CommandResult`: `{Success, Output, Error}`.
The `Error` field (an optional `derrors.Error`) is modelled as an optional message. -/
structure CommandResult where
  success : Bool
  output : String
  cmdErr : Option DError
  deriving DecidableEq

/-- Command categories of the command contract: Sync or Async. -/
inductive CommandCategory where
  | sync
  | async
  deriving DecidableEq

/-- Outcome of one `Run(workflowID)` invocation. Go returns the pair
`(*CommandResult, derrors.Error)`; both components are optional, and nothing in
the language forces exactly one to be set, so the embedding keeps the raw pair. -/
structure RunResult where
  res : Option CommandResult
  err : Option DError
  deriving DecidableEq

/-- A run outcome counts as a failure for Try/executor purposes when it carries a
transport-level error or a result with `Success=false` (spec 4.3 and 4.5). -/
def RunResult.failed (r : RunResult) : Bool :=
  r.err.isSome ||
    (match r.res with
     | some cr => !cr.success
     | none => false)

/-- The polymorphic command universe. Concrete variants from the repository
(`exec`, `scp`, `logger`, `fail`, `sleep`, `try`) appear as constructors;
`oracle` stands for any collaborator-registered variant with an arbitrary
category and an arbitrary `Run` outcome, which keeps the universe open the way
the Go interface does. -/
inductive Command where
  | exec (cmd : String) (args : List String)
  | scp (targetHost username password privateKey source destination : String)
  | logger (msg : String)
  | failc (cat : CommandCategory)
  | sleep (cat : CommandCategory) (time : String)
  | tryCmd (description : String) (tryCommand onFailCommand : Command)
  | oracle (cat : CommandCategory) (name : String) (res : Option CommandResult) (err : Option DError)
  deriving DecidableEq

/-- Modelled from the spec: Command.Run for the variants whose executable code is
not part of the repository snapshot (the snapshot only holds their tests).
`logger` succeeds with its message as output, `fail` produces `Success=false`,
`sleep` succeeds with output `Slept for t` (behaviours fixed by the Try unit
test expectations), and `try` follows the spec 4.3 algorithm: run the primary,
and exactly on a transport error or a `Success=false` result run the fallback
and return its outcome unchanged. External effect commands (`exec`, `scp`)
are out of scope per spec section 1; arbitrary behaviours are represented by
`oracle`. -/
def Command.run : Command → String → RunResult
  | .exec _ _, _ => ⟨some ⟨true, "", none⟩, none⟩
  | .scp _ _ _ _ _ _, _ => ⟨some ⟨true, "", none⟩, none⟩
  | .logger msg, _ => ⟨some ⟨true, msg, none⟩, none⟩
  | .failc _, _ => ⟨some ⟨false, "fail", none⟩, none⟩
  | .sleep _ t, _ => ⟨some ⟨true, "Slept for " ++ t, none⟩, none⟩
  | .tryCmd _ c1 c2, w =>
      let r1 := c1.run w
      if r1.failed then c2.run w else r1
  | .oracle _ _ res err, _ => ⟨res, err⟩

/-- Instrumented form of the Try algorithm: the boolean records whether the
fallback (`OnFailCommand`) was invoked. Its first component is definitionally
the `run` of the corresponding `tryCmd`. -/
def tryRunDetail (c1 c2 : Command) (w : String) : RunResult × Bool :=
  let r1 := c1.run w
  if r1.failed then (c2.run w, true) else (r1, false)

/-- Predicate for Try commands, used to state the executor's fail-fast policy
for commands not wrapped in a Try. -/
def Command.isTryCommand : Command → Bool
  | .tryCmd _ _ _ => true
  | _ => false

/-- Modelled from the spec: the Executor (spec 4.5), whose source is not part of
the repository snapshot. Commands run strictly in sequence order; the first
command returning a transport error or an unrecovered `Success=false` result
aborts the remainder and becomes the workflow outcome; an empty remainder
yields an overall success. -/
def runCommandSequence : List Command → String → RunResult
  | [], _ => ⟨some ⟨true, "workflow finished", none⟩, none⟩
  | c :: rest, w =>
      let r := c.run w
      if r.failed then r else runCommandSequence rest w

/-- Progress states of the install state machine (spec 4.6). -/
inductive InstallState where
  | INIT
  | IN_PROGRESS
  | FINISHED
  | ERROR
  deriving DecidableEq

/-- Rank of a state in the monotonic transition order `INIT`, then
`IN_PROGRESS`, then a terminal state. -/
def stateRank : InstallState → Nat
  | .INIT => 0
  | .IN_PROGRESS => 1
  | .FINISHED => 2
  | .ERROR => 2

/-- Modelled from the spec: the sequence of states the Progress Store entry of
an accepted install takes (spec 4.6), whose source is not part of the
repository snapshot. The entry is created as `INIT` when the request is
accepted, becomes `IN_PROGRESS` when the Executor starts, and ends `FINISHED`
on overall success or `ERROR` otherwise. -/
def installTrace (cmds : List Command) (w : String) : List InstallState :=
  [.INIT, .IN_PROGRESS,
   if (runCommandSequence cmds w).failed then .ERROR else .FINISHED]

/-- Modelled from the spec: the Progress Store (spec 4.6 and 6), a table from
install identifier to lifecycle state; its source is not part of the
repository snapshot. -/
def ProgressStore := String → Option InstallState

/-- Modelled from the spec: CheckProgress fails with NotFound when the
identifier is unknown, otherwise returns the stored state. -/
def checkProgress (s : ProgressStore) (id : String) : Except DError InstallState :=
  match s id with
  | some st => .ok st
  | none => .error "NotFound"

/-- Modelled from the spec: RemoveInstall deletes the entry, failing with
NotFound when the identifier is unknown. -/
def removeInstall (s : ProgressStore) (id : String) : Except DError ProgressStore :=
  match s id with
  | some _ => .ok (fun x => if x = id then none else s x)
  | none => .error "NotFound"

/-- Helper producing the indentation prefix used by every PrettyPrint. -/
def spaces (n : Nat) : String :=
  String.mk (List.replicate n ' ')

/-- CreateManagementConfig command (cluster config for the management cluster). -/
structure CreateManagementConfig where
  kubeConfigPath : String
  publicHost : String
  publicPort : String
  dockerUsername : String
  dockerPassword : String
  deriving DecidableEq

/-- Outcomes of the external interactions performed by
`CreateManagementConfig.Run`; `none` means the step succeeded. -/
structure CMCEnv where
  connect : Option DError
  createNamespacesIfNotExist : Option DError
  createConfigMap : Option DError
  createDockerSecret : Option DError
  createAuthSecret : Option DError

/-- Embedding of `CreateManagementConfig.Run`: a connect failure is returned as
a transport error with no result; every later failure is returned as a
`Success=false` result with a nil transport error; otherwise a success result. -/
def CreateManagementConfig.run (env : CMCEnv) : RunResult :=
  match env.connect with
  | some e => ⟨none, some e⟩
  | none =>
      match env.createNamespacesIfNotExist with
      | some e => ⟨some ⟨false, "cannot create namespace", some e⟩, none⟩
      | none =>
          match env.createConfigMap with
          | some e => ⟨some ⟨false, "cannot create management config", some e⟩, none⟩
          | none =>
              match env.createDockerSecret with
              | some e => ⟨some ⟨false, "cannot create management config", some e⟩, none⟩
              | none =>
                  match env.createAuthSecret with
                  | some e => ⟨some ⟨false, "cannot create management config", some e⟩, none⟩
                  | none => ⟨some ⟨true, "management cluster config has been created", none⟩, none⟩

def CreateManagementConfig.string (c : CreateManagementConfig) : String :=
  "SYNC CreateManagementConfig publicHost: " ++ c.publicHost ++ ", publicPort: " ++ c.publicPort

def CreateManagementConfig.prettyPrint (c : CreateManagementConfig) (indentation : Nat) : String :=
  spaces indentation ++ c.string

def CreateManagementConfig.userString (c : CreateManagementConfig) : String :=
  "Creating management cluster config with public address " ++ c.publicHost ++ ":" ++ c.publicPort

/-- InstallIstio command. -/
structure InstallIstio where
  kubeConfigPath : String
  istioPath : String
  clusterID : String
  isAppCluster : Bool
  staticIpAddress : String
  tempPath : String
  dnsPublicHost : String
  deriving DecidableEq

/-- Outcomes of the external interactions performed by `InstallIstio.Run`.
The `installGateway` outcome is recorded but its error is discarded by the
source (the call's return value is dropped on the master branch). -/
structure IstioEnv where
  connect : Option DError
  createNamespace : Option DError
  createSecrets : Option DError
  installInSlave : Option DError
  installInMaster : Option DError
  installGateway : Option DError

/-- Embedding of `InstallIstio.Run`: connect, namespace and secret failures are
returned as transport errors with no result; a failing istioctl install step is
returned as BOTH a `Success=false` result and a non-nil transport error
(`return entities.NewCommandResult(false, ...), err`). -/
def InstallIstio.run (i : InstallIstio) (env : IstioEnv) : RunResult :=
  match env.connect with
  | some e => ⟨none, some e⟩
  | none =>
      match env.createNamespace with
      | some _ => ⟨none, some "impossible to create namespace for istio"⟩
      | none =>
          match env.createSecrets with
          | some _ => ⟨none, some "impossible to create Istio secrets"⟩
          | none =>
              match (if i.isAppCluster then env.installInSlave else env.installInMaster) with
              | some e => ⟨some ⟨false, "impossible to install istio", some e⟩, some e⟩
              | none => ⟨some ⟨true, "istio has been installed successfully", none⟩, none⟩

def InstallIstio.string (_ : InstallIstio) : String :=
  "SYNC InstallIstio"

def InstallIstio.prettyPrint (i : InstallIstio) (indentation : Nat) : String :=
  spaces indentation ++ i.string

def InstallIstio.userString (_ : InstallIstio) : String :=
  "Installing Istio"

/-- InstallVpnServerLB command (vpn server load balancer). -/
structure InstallVpnServerLB where
  kubeConfigPath : String
  platformType : String
  deriving DecidableEq

/-- Outcomes of the external interactions performed by `InstallVpnServerLB.Run`. -/
structure VpnLBEnv where
  connect : Option DError
  createService : Option DError

/-- Embedding of `InstallVpnServerLB.InstallLoadBalancer`. -/
def InstallVpnServerLB.installLoadBalancer (imd : InstallVpnServerLB) (env : VpnLBEnv) : RunResult :=
  match env.createService with
  | some e => ⟨some ⟨false, "cannot install service", some e⟩, none⟩
  | none => ⟨some ⟨true, "VPN Server installed on " ++ imd.platformType, none⟩, none⟩

/-- Embedding of `InstallVpnServerLB.InstallMinikube`. -/
def InstallVpnServerLB.installMinikube (env : VpnLBEnv) : RunResult :=
  match env.createService with
  | some e => ⟨some ⟨false, "cannot install service", some e⟩, none⟩
  | none => ⟨some ⟨true, "VPN Server installed on Minikube", none⟩, none⟩

/-- Embedding of `InstallVpnServerLB.Run`: after a successful connect the
platform type selects the install path; the strings are the `String()` values
of the gRPC platform enum (`AZURE`, `BAREMETAL`, `MINIKUBE`); any other
platform yields a `Success=false` result with message
`unsupported platform type` and a nil transport error. -/
def InstallVpnServerLB.run (imd : InstallVpnServerLB) (env : VpnLBEnv) : RunResult :=
  match env.connect with
  | some e => ⟨none, some e⟩
  | none =>
      if imd.platformType = "AZURE" then imd.installLoadBalancer env
      else if imd.platformType = "BAREMETAL" then imd.installLoadBalancer env
      else if imd.platformType = "MINIKUBE" then InstallVpnServerLB.installMinikube env
      else ⟨some ⟨false, "unsupported platform type", none⟩, none⟩

def InstallVpnServerLB.string (imd : InstallVpnServerLB) : String :=
  "SYNC InstallVpnServerLB on " ++ imd.platformType

def InstallVpnServerLB.prettyPrint (imd : InstallVpnServerLB) (indentation : Nat) : String :=
  spaces indentation ++ imd.string

def InstallVpnServerLB.userString (_ : InstallVpnServerLB) : String :=
  "Installing VPN Server loadbalancer"

/-- CreateRegistrySecrets command. -/
structure CreateRegistrySecrets where
  kubeConfigPath : String
  onManagementCluster : Bool
  credentialsName : String
  username : String
  password : String
  url : String
  deriving DecidableEq

/-- Outcomes of the external interactions performed by
`CreateRegistrySecrets.Run`; `dockerRun` is the outcome of the inner
`CreateDockerSecret.Run` invocation. -/
structure CRSEnv where
  connect : Option DError
  createNamespaceIfNotExists : Option DError
  createEnvironmentSecret : Option DError
  dockerRun : RunResult

/-- Embedding of `CreateRegistrySecrets.createDockerSecrets`: an error from the
inner run propagates; a `Success=false` result propagates its (possibly nil)
result error; otherwise the step succeeds. -/
def createDockerSecretsStep (env : CRSEnv) : Option DError :=
  match env.dockerRun.err with
  | some e => some e
  | none =>
      match env.dockerRun.res with
      | some cr => if cr.success then none else cr.cmdErr
      | none => none

/-- Embedding of `CreateRegistrySecrets.Run`. -/
def CreateRegistrySecrets.run (cmd : CreateRegistrySecrets) (env : CRSEnv) : RunResult :=
  match env.connect with
  | some e => ⟨none, some e⟩
  | none =>
      match env.createNamespaceIfNotExists with
      | some e => ⟨some ⟨false, "cannot create namespace", some e⟩, none⟩
      | none =>
          match (if cmd.onManagementCluster || cmd.credentialsName = "nalej-public-registry"
                 then env.createEnvironmentSecret else none) with
          | some e => ⟨some ⟨false, "cannot create environment secret", some e⟩, none⟩
          | none =>
              match createDockerSecretsStep env with
              | some e => ⟨some ⟨false, "cannot create docker registry secret", some e⟩, none⟩
              | none => ⟨some ⟨true, "management registry secret has been created", none⟩, none⟩

def CreateRegistrySecrets.string (cmd : CreateRegistrySecrets) : String :=
  "SYNC CreateRegistrySecrets for a " ++ cmd.credentialsName ++ " environment"

def CreateRegistrySecrets.prettyPrint (cmd : CreateRegistrySecrets) (indentation : Nat) : String :=
  spaces indentation ++ cmd.string

def CreateRegistrySecrets.userString (cmd : CreateRegistrySecrets) : String :=
  "Creating managment registry secrets for a " ++ cmd.credentialsName ++ " environment"

/-- LaunchComponents command (creates the Kubernetes entities described by the
YAML files of a directory). -/
structure LaunchComponents where
  kubeConfigPath : String
  namespaces : List String
  componentsDir : String
  platformType : String
  environment : String
  deriving DecidableEq

/-- Outcomes of the external interactions performed by `LaunchComponents.Run`:
the connect outcome, whether the configured environment string resolves to a
target environment, the per-namespace creation outcomes, the directory listing
of the components dir (`none` when `ReadDir` fails) and the per-component
launch outcomes. -/
structure LCEnv where
  connect : Option DError
  targetEnvironmentFound : Bool
  createNamespace : String → Option DError
  readDir : Option (List String)
  launchComponent : String → Option DError

/-- Leading-segment test on character lists (first argument is the candidate
leading segment). -/
def charsLeading : List Char → List Char → Bool
  | [], _ => true
  | _ :: _, [] => false
  | p :: ps, c :: cs => (p = c) && charsLeading ps cs

/-- Suffix test mirroring Go `strings.HasSuffix`, written over character lists
so that it evaluates by kernel reduction. -/
def strEndsWith (s post : String) : Bool :=
  charsLeading post.toList.reverse s.toList.reverse

/-- First error of the namespace creation loop of `LaunchComponents.Run`. -/
def createNamespacesLoop (f : String → Option DError) : List String → Option DError
  | [] => none
  | n :: rest =>
      match f n with
      | some e => some e
      | none => createNamespacesLoop f rest

/-- Component launch loop of `LaunchComponents.Run`: aborts at the first
failing component, otherwise counts the launched components. -/
def launchLoop (f : String → Option DError) : List String → Except DError Nat
  | [] => .ok 0
  | c :: rest =>
      match f c with
      | some e => .error e
      | none => (launchLoop f rest).map (· + 1)

/-- Embedding of `LaunchComponents.ListComponents`: reads the components dir
and keeps the `.yaml` files; a failing directory read is a fatal abort
(`log.Fatal`), modelled as `none`. -/
def LaunchComponents.listComponents (_ : LaunchComponents) (env : LCEnv) :
    Option (List String) :=
  match env.readDir with
  | none => none
  | some files => some (files.filter (fun f => strEndsWith f ".yaml"))

/-- Embedding of `LaunchComponents.Run`. -/
def LaunchComponents.run (lc : LaunchComponents) (env : LCEnv) : RunResult :=
  match env.connect with
  | some e => ⟨none, some e⟩
  | none =>
      if !env.targetEnvironmentFound then
        ⟨none, some "cannot determine target environment"⟩
      else
        match createNamespacesLoop env.createNamespace lc.namespaces with
        | some e => ⟨none, some e⟩
        | none =>
            match env.readDir with
            | none => ⟨none, some "cannot read components dir"⟩
            | some files =>
                match launchLoop env.launchComponent
                    (files.filter (fun f => strEndsWith f ".yaml")) with
                | .error e => ⟨some ⟨false, "cannot launch component", some e⟩, none⟩
                | .ok n => ⟨some ⟨true, toString n ++ " components have been launched", none⟩, none⟩

def LaunchComponents.string (lc : LaunchComponents) : String :=
  "SYNC LaunchComponents from " ++ lc.componentsDir

/-- Embedding of `LaunchComponents.PrettyPrint`: unlike every other variant it
calls `ListComponents`, so it depends on the filesystem and aborts (`none`)
when the components dir cannot be read. -/
def LaunchComponents.prettyPrint (lc : LaunchComponents) (env : LCEnv) (indentation : Nat) :
    Option String :=
  match lc.listComponents env with
  | none => none
  | some comps =>
      some (spaces indentation ++ lc.string
        ++ comps.foldl (fun acc c => acc ++ "\n" ++ spaces indentation ++ "    " ++ c) "")

def LaunchComponents.userString (lc : LaunchComponents) : String :=
  "Launching K8s components from " ++ lc.componentsDir ++ " for " ++ lc.environment

/-- Mutual exclusivity of the two failure channels of a run outcome: a
transport error comes with no result, and a semantic failure result comes with
a nil transport error. -/
def exclusiveChannels (r : RunResult) : Prop :=
  (r.err ≠ none → r.res = none)
  ∧ (∀ cr, r.res = some cr → cr.success = false → r.err = none)

/-- JSON values, the wire format of workflow definitions. -/
inductive Json where
  | null
  | bool (b : Bool)
  | num (n : Int)
  | str (s : String)
  | arr (elems : List Json)
  | obj (fields : List (String × Json))

/-- Field lookup in a JSON object. -/
def jlookup : List (String × Json) → String → Option Json
  | [], _ => none
  | (k, v) :: rest, key => if k = key then some v else jlookup rest key

/-- String field access with the Go `encoding/json` convention: a missing field
keeps the zero value, a present field of the wrong type is an unmarshal error. -/
def getStrField (fields : List (String × Json)) (key : String) : Except DError String :=
  match jlookup fields key with
  | none => .ok ""
  | some (.str s) => .ok s
  | some _ => .error ("cannot unmarshal command: field " ++ key)

/-- Interprets a JSON array as a list of strings. -/
def asStringList : List Json → Except DError (List String)
  | [] => .ok []
  | .str s :: rest => (asStringList rest).map (fun l => s :: l)
  | _ :: _ => .error "cannot unmarshal string array"

/-- String-array field access with the Go zero-value convention. -/
def getStrListField (fields : List (String × Json)) (key : String) :
    Except DError (List String) :=
  match jlookup fields key with
  | none => .ok []
  | some (.arr js) => asStringList js
  | some _ => .error ("cannot unmarshal command: field " ++ key)

/-- Registered deserializer for the `scp` variant (fields per spec section 6). -/
def decodeScp (fields : List (String × Json)) : Except DError Command := do
  let th ← getStrField fields "targetHost"
  let creds ←
    match jlookup fields "credentials" with
    | none => pure ("", "", "")
    | some (.obj cf) => do
        let u ← getStrField cf "username"
        let p ← getStrField cf "password"
        let k ← getStrField cf "privateKey"
        pure (u, p, k)
    | some _ => Except.error "cannot unmarshal command: field credentials"
  let src ← getStrField fields "source"
  let dst ← getStrField fields "destination"
  return .scp th creds.1 creds.2.1 creds.2.2 src dst

/-- Modelled from the spec: the Registry-driven decode step of the Parser
(spec 4.1 and 4.4 step 4), whose source is not part of the repository
snapshot. The match on the `(type, name)` discriminant pair embodies
`Resolve(category, name)` over the deserializers registered at process
initialization; an unregistered pair is an UnknownCommand error. The `try`
deserializer recursively invokes the Registry on its two nested command
objects; the fuel bounds that nesting depth and only that. -/
def decodeCommand : Nat → Json → Except DError Command
  | 0, _ => .error "UnknownCommand: maximum command nesting exceeded"
  | f + 1, .obj fields => do
      let ty ← getStrField fields "type"
      let nm ← getStrField fields "name"
      match ty, nm with
      | "sync", "exec" => do
          let cmd ← getStrField fields "cmd"
          let args ← getStrListField fields "args"
          return .exec cmd args
      | "sync", "scp" => decodeScp fields
      | "sync", "logger" => do
          let msg ← getStrField fields "msg"
          return .logger msg
      | "sync", "fail" => return .failc .sync
      | "async", "fail" => return .failc .async
      | "async", "sleep" => do
          let t ← getStrField fields "time"
          return .sleep .async t
      | "sync", "try" => do
          let d ← getStrField fields "description"
          match jlookup fields "cmd", jlookup fields "onFail" with
          | some jc, some jf => do
              let c1 ← decodeCommand f jc
              let c2 ← decodeCommand f jf
              return .tryCmd d c1 c2
          | _, _ => .error "cannot unmarshal try command: cmd and onFail required"
      | _, _ => .error ("UnknownCommand " ++ ty ++ "/" ++ nm)
  | _ + 1, _ => .error "MalformedDefinitionError: command is not an object"

/-- Nesting depth bound passed to the command decoder by the parser. -/
def defaultCommandDepth : Nat := 32

/-- Decodes every element of the commands array, aborting on the first failing
element so that no partial workflow is ever produced. -/
def decodeCommandList (fuel : Nat) : List Json → Except DError (List Command)
  | [] => .ok []
  | j :: rest => do
      let c ← decodeCommand fuel j
      let cs ← decodeCommandList fuel rest
      return c :: cs

/-- The parsed workflow entity: identifier, description and the ordered
command sequence. -/
structure Workflow where
  workflowID : String
  description : String
  commands : List Command
  deriving DecidableEq

/-- Modelled from the spec: step 3 to 5 of the Parser (spec 4.4): the rendered
JSON must be an object with a `description` string and a `commands` array,
decoded elementwise through the Registry and assembled in array order. -/
def decodeWorkflowJson (name : String) (j : Json) : Except DError Workflow :=
  match j with
  | .obj fields => do
      let desc ← getStrField fields "description"
      match jlookup fields "commands" with
      | some (.arr js) => do
          let cs ← decodeCommandList defaultCommandDepth js
          return ⟨name, desc, cs⟩
      | _ => .error "MalformedDefinitionError: commands array required"
  | _ => .error "MalformedDefinitionError: workflow is not an object"

/-- Modelled from the spec: step 1 of the Parser (spec 4.4): strip line
comments, sequences starting with a double slash up to the end of the line.
The boolean flag records whether the scanner is inside a comment. -/
def stripCommentsAux : Bool → List Char → List Char
  | _, [] => []
  | true, '\n' :: rest => '\n' :: stripCommentsAux false rest
  | true, _ :: rest => stripCommentsAux true rest
  | false, '/' :: '/' :: rest => stripCommentsAux true rest
  | false, c :: rest => c :: stripCommentsAux false rest

/-- Comment stripping over the raw workflow source. -/
def stripComments (cs : List Char) : List Char :=
  stripCommentsAux false cs

/-- Whitespace skipping for the JSON reader. -/
def skipWs : List Char → List Char
  | c :: rest =>
      if c = ' ' || c = '\n' || c = '\t' || c = '\r' then skipWs rest else c :: rest
  | [] => []

/-- Escape resolution inside JSON string literals. -/
def escapeChar (c : Char) : Char :=
  if c = 'n' then '\n' else if c = 't' then '\t' else if c = 'r' then '\r' else c

/-- Reads the characters of a JSON string literal after its opening quote,
returning the content and the remaining input. -/
def parseStringChars : List Char → Except DError (List Char × List Char)
  | [] => .error "MalformedDefinitionError: unterminated string"
  | '"' :: rest => .ok ([], rest)
  | '\\' :: c :: rest =>
      (parseStringChars rest).map (fun p => (escapeChar c :: p.1, p.2))
  | c :: rest => (parseStringChars rest).map (fun p => (c :: p.1, p.2))

/-- Reads a decimal digit run, accumulating its value. -/
def parseDigitsFrom : Nat → List Char → Nat × List Char
  | acc, c :: rest =>
      if c.isDigit then parseDigitsFrom (acc * 10 + (c.toNat - 48)) rest
      else (acc, c :: rest)
  | acc, [] => (acc, [])

/-- Reads a natural number literal (at least one digit). -/
def parseNat : List Char → Except DError (Nat × List Char)
  | c :: rest =>
      if c.isDigit then .ok (parseDigitsFrom (c.toNat - 48) rest)
      else .error "MalformedDefinitionError: digit expected"
  | [] => .error "MalformedDefinitionError: digit expected"

/-- Intermediate results of the JSON reader: a value, the members of an
object, or the items of an array. -/
inductive ParseOut where
  | val (j : Json)
  | fields (fs : List (String × Json))
  | items (js : List Json)

/-- Modelled from the spec: the JSON reader behind step 3 of the Parser
(spec 4.4), whose source (Go `encoding/json`) is external to the repository.
The mode selects what is being read: `0` a value, `1` object members after an
opening brace or comma, anything else array items after an opening bracket or
comma. The fuel decreases on every recursive call, so the recursion is
structural; it is initialized generously from the input length. -/
def parseCore : Nat → Nat → List Char → Except DError (ParseOut × List Char)
  | 0, _, _ => .error "MalformedDefinitionError: input exhausted the reader"
  | f + 1, 0, cs =>
      match skipWs cs with
      | '"' :: rest =>
          (parseStringChars rest).map (fun p => (.val (.str (String.mk p.1)), p.2))
      | '\x7b' :: rest =>
          (parseCore f 1 rest).bind (fun p =>
            match p.1 with
            | .fields fs => .ok (.val (.obj fs), p.2)
            | _ => .error "MalformedDefinitionError: object members expected")
      | '[' :: rest =>
          (parseCore f 2 rest).bind (fun p =>
            match p.1 with
            | .items js => .ok (.val (.arr js), p.2)
            | _ => .error "MalformedDefinitionError: array items expected")
      | 't' :: 'r' :: 'u' :: 'e' :: rest => .ok (.val (.bool true), rest)
      | 'f' :: 'a' :: 'l' :: 's' :: 'e' :: rest => .ok (.val (.bool false), rest)
      | 'n' :: 'u' :: 'l' :: 'l' :: rest => .ok (.val .null, rest)
      | '-' :: rest =>
          (parseNat rest).map (fun p => (.val (.num (-(p.1 : Int))), p.2))
      | c :: rest =>
          if c.isDigit then
            (parseNat (c :: rest)).map (fun p => (.val (.num (p.1 : Int)), p.2))
          else .error "MalformedDefinitionError: value expected"
      | [] => .error "MalformedDefinitionError: unexpected end of input"
  | f + 1, 1, cs =>
      match skipWs cs with
      | '\x7d' :: rest => .ok (.fields [], rest)
      | '"' :: rest =>
          (parseStringChars rest).bind (fun pk =>
            match skipWs pk.2 with
            | ':' :: rest2 =>
                (parseCore f 0 rest2).bind (fun pv =>
                  match pv.1 with
                  | .val v =>
                      (match skipWs pv.2 with
                       | ',' :: rest3 =>
                           (parseCore f 1 rest3).bind (fun pr =>
                             match pr.1 with
                             | .fields fs => .ok (.fields ((String.mk pk.1, v) :: fs), pr.2)
                             | _ => .error "MalformedDefinitionError: object members expected")
                       | '\x7d' :: rest3 => .ok (.fields [(String.mk pk.1, v)], rest3)
                       | _ => .error "MalformedDefinitionError: comma or closing brace expected")
                  | _ => .error "MalformedDefinitionError: value expected")
            | _ => .error "MalformedDefinitionError: colon expected")
      | _ => .error "MalformedDefinitionError: member key expected"
  | f + 1, _, cs =>
      match skipWs cs with
      | ']' :: rest => .ok (.items [], rest)
      | cs2 =>
          (parseCore f 0 cs2).bind (fun pv =>
            match pv.1 with
            | .val v =>
                (match skipWs pv.2 with
                 | ',' :: rest3 =>
                     (parseCore f 2 rest3).bind (fun pr =>
                       match pr.1 with
                       | .items js => .ok (.items (v :: js), pr.2)
                       | _ => .error "MalformedDefinitionError: array items expected")
                 | ']' :: rest3 => .ok (.items [v], rest3)
                 | _ => .error "MalformedDefinitionError: comma or closing bracket expected")
            | _ => .error "MalformedDefinitionError: value expected")

/-- Reads one JSON value spanning the whole input. -/
def parseJsonText (cs : List Char) : Except DError Json :=
  match parseCore (2 * cs.length + 4) 0 cs with
  | .ok (.val j, rest) =>
      if (skipWs rest).isEmpty then .ok j
      else .error "MalformedDefinitionError: trailing input"
  | .ok _ => .error "MalformedDefinitionError: value expected"
  | .error e => .error e

/-- Modelled from the spec: `Parser.ParseWorkflow` for a source without
template directives (rendering against the empty parameter bag leaves the text
unchanged): strip line comments, read the JSON, decode it through the Registry
into a Workflow named by the diagnostics name. -/
def parseWorkflow (source : String) (name : String) : Except DError Workflow := do
  let j ← parseJsonText (stripComments source.toList)
  decodeWorkflowJson name j

/-- The two-exec-command example source of the parser test, a JSON object with
a line comment (braces written with escapes). -/
def basicDefinitionNoTemplate : String :=
  "\n\x7b\n \"description\": \"basicDefinitionNoTemplate\",\n // This is a comment\n \"commands\": [\n  \x7b\"type\":\"sync\", \"name\": \"exec\", \"cmd\": \"cmd1\"\x7d,\n  \x7b\"type\":\"sync\", \"name\": \"exec\", \"cmd\": \"cmd2\", \"args\":[\"arg1\"]\x7d\n ]\n\x7d\n"

/-- Pieces of a templated string: literal text, a field access into the
parameter bag, the zero-based iteration index, or the iteration node value
(spec 4.4 step 2). -/
inductive TplPiece where
  | lit (s : String)
  | fieldRef (path : List String)
  | idxVar
  | nodeVar

/-- Path lookup into the parameter bag. -/
def jpath : Json → List String → Option Json
  | j, [] => some j
  | .obj fields, k :: rest =>
      (match jlookup fields k with
       | some v => jpath v rest
       | none => none)
  | _, _ :: _ => none

/-- Modelled from the spec: rendering of one templating piece against the
parameter bag and the optional iteration context (spec 4.4 step 2); a
reference to a missing field is a template error. -/
def renderPiece (params : Json) (ctx : Option (Nat × String)) :
    TplPiece → Except DError String
  | .lit s => .ok s
  | .fieldRef path =>
      match jpath params path with
      | some (.str s) => .ok s
      | some _ => .error "TemplateError: referenced field is not a string"
      | none => .error "TemplateError: missing field"
  | .idxVar =>
      match ctx with
      | some (i, _) => .ok (toString i)
      | none => .error "TemplateError: index variable outside iteration"
  | .nodeVar =>
      match ctx with
      | some (_, n) => .ok n
      | none => .error "TemplateError: node variable outside iteration"

/-- Concatenated rendering of the pieces of a templated string. -/
def renderPieces (params : Json) (ctx : Option (Nat × String)) :
    List TplPiece → Except DError String
  | [] => .ok ""
  | [p] => renderPiece params ctx p
  | p :: rest => do
      let s ← renderPiece params ctx p
      let srest ← renderPieces params ctx rest
      return s ++ srest

/-- Templated command fields: a templated string or an array of templated
strings (the field shapes occurring in workflow definitions). -/
inductive TplField where
  | strF (ps : List TplPiece)
  | arrF (elems : List (List TplPiece))

/-- Rendering of an array of templated strings. -/
def renderStrList (params : Json) (ctx : Option (Nat × String)) :
    List (List TplPiece) → Except DError (List String)
  | [] => .ok []
  | ps :: rest => do
      let s ← renderPieces params ctx ps
      let l ← renderStrList params ctx rest
      return s :: l

/-- Rendering of one templated command field to JSON. -/
def renderField (params : Json) (ctx : Option (Nat × String)) :
    TplField → Except DError Json
  | .strF ps => (renderPieces params ctx ps).map .str
  | .arrF elems => (renderStrList params ctx elems).map (fun l => .arr (l.map .str))

/-- Rendering of the fields of one templated command object. -/
def renderCmdFields (params : Json) (ctx : Option (Nat × String)) :
    List (String × TplField) → Except DError (List (String × Json))
  | [] => .ok []
  | (k, f) :: rest => do
      let v ← renderField params ctx f
      let vs ← renderCmdFields params ctx rest
      return (k, v) :: vs

/-- Rendering of one templated command object to a JSON command object. -/
def renderCmd (params : Json) (ctx : Option (Nat × String))
    (c : List (String × TplField)) : Except DError Json :=
  (renderCmdFields params ctx c).map .obj

/-- Elements of the templated commands array: a single command object, or an
iteration construct producing one command object per node of the referenced
parameter sequence with a zero-based index (spec 4.4 step 2). -/
inductive TplCmdElem where
  | one (c : List (String × TplField))
  | iter (path : List String) (body : List (String × TplField))

/-- A templated workflow source: description plus templated commands array. -/
structure TplWorkflow where
  description : String
  commands : List TplCmdElem

/-- Modelled from the spec: expansion of an iteration construct, rendering the
body once per node with the running zero-based index and the node value in
scope. -/
def renderIter (params : Json) (body : List (String × TplField)) :
    Nat → List Json → Except DError (List Json)
  | _, [] => .ok []
  | i, .str node :: rest => do
      let c ← renderCmd params (some (i, node)) body
      let cs ← renderIter params body (i + 1) rest
      return c :: cs
  | _, _ :: _ => .error "TemplateError: iteration node is not a string"

/-- Rendering of the templated commands array: single elements render once,
iteration constructs expand over the parameter sequence they reference. -/
def renderElems (params : Json) : List TplCmdElem → Except DError (List Json)
  | [] => .ok []
  | .one c :: rest => do
      let j ← renderCmd params none c
      let js ← renderElems params rest
      return j :: js
  | .iter path body :: rest =>
      match jpath params path with
      | some (.arr nodes) => do
          let gens ← renderIter params body 0 nodes
          let js ← renderElems params rest
          return gens ++ js
      | some _ => .error "TemplateError: iteration over a non-sequence"
      | none => .error "TemplateError: missing field"

/-- Modelled from the spec: `Parser.ParseWorkflow` on a templated source,
with the template expansion taken at the structural level (spec 4.4 step 2)
followed by the Registry decode (steps 4 and 5). -/
def parseTemplatedWorkflow (t : TplWorkflow) (name : String) (params : Json) :
    Except DError Workflow := do
  let js ← renderElems params t.commands
  let cs ← decodeCommandList defaultCommandDepth js
  return ⟨name, t.description, cs⟩

/-- Pairs every list element with its zero-based position starting at `k`. -/
def enumFrom {α : Type} : Nat → List α → List (Nat × α)
  | _, [] => []
  | k, a :: as => (k, a) :: enumFrom (k + 1) as

/-- Fixed head command of the iteration example template: an `exec` whose
arguments reference the install and cluster identifiers. -/
def basicTemplateIterationFixed : List (String × TplField) :=
  [("type", .strF [.lit "sync"]), ("name", .strF [.lit "exec"]),
   ("cmd", .strF [.lit "generalCmd"]),
   ("args", .arrF [[.fieldRef ["InstallRequest", "InstallId"]],
                   [.fieldRef ["InstallRequest", "ClusterId"]]])]

/-- Iteration body of the example template: an `exec` whose command name
embeds the index and whose argument is the node value. -/
def basicTemplateIterationBody : List (String × TplField) :=
  [("type", .strF [.lit "sync"]), ("name", .strF [.lit "exec"]),
   ("cmd", .strF [.lit "cmd", .idxVar]),
   ("args", .arrF [[.nodeVar]])]

/-- The templated workflow source of the parser iteration test: one fixed
command plus an iteration over the install request nodes. -/
def basicTemplateIteration : TplWorkflow :=
  ⟨"basicTemplateIteration",
   [.one basicTemplateIterationFixed,
    .iter ["InstallRequest", "Nodes"] basicTemplateIterationBody]⟩

/-- Parameter bag of the iteration test: an install request with identifiers
and a node list. -/
def testParameters : Json :=
  .obj [("InstallRequest", .obj
    [("InstallId", .str "install-1"), ("ClusterId", .str "cluster-1"),
     ("Nodes", .arr [.str "10.1.1.0", .str "10.1.1.1"])])]

/-- C1: running a Try executes its OnFailCommand if and only if the TryCommand
returned a transport-level error or a result with `Success=false`; when the
TryCommand succeeds, the Try's result is the TryCommand's result, the fallback
is not invoked, and the outcome does not depend on the fallback at all. -/
theorem try_onfail_iff_primary_failure (d : String) (c1 c2 : Command) (w : String) :
    ((Command.tryCmd d c1 c2).run w = (tryRunDetail c1 c2 w).1)
    ∧ ((tryRunDetail c1 c2 w).2 = true ↔
        ((c1.run w).err ≠ none ∨ ∃ cr, (c1.run w).res = some cr ∧ cr.success = false))
    ∧ ((c1.run w).failed = false →
        (Command.tryCmd d c1 c2).run w = c1.run w
        ∧ (tryRunDetail c1 c2 w).2 = false
        ∧ ∀ other : Command, tryRunDetail c1 other w = tryRunDetail c1 c2 w) := by
  refine ⟨?_, ?_, ?_⟩
  · show (if (c1.run w).failed then c2.run w else c1.run w)
        = (if (c1.run w).failed then (c2.run w, true) else (c1.run w, false)).1
    by_cases hf : (c1.run w).failed <;> simp [hf]
  · rcases hr : c1.run w with ⟨res, err⟩
    cases err with
    | some e =>
        simp [tryRunDetail, RunResult.failed, hr]
    | none =>
        cases res with
        | none => simp [tryRunDetail, RunResult.failed, hr]
        | some cr =>
            cases hcs : cr.success with
            | true => simp [tryRunDetail, RunResult.failed, hr, hcs]
            | false =>
                simp only [tryRunDetail, RunResult.failed, hr, hcs]
                simp [hcs]
  · intro hok
    refine ⟨?_, ?_, ?_⟩
    · show (if (c1.run w).failed then c2.run w else c1.run w) = c1.run w
      simp [hok]
    · simp [tryRunDetail, hok]
    · intro other
      simp [tryRunDetail, hok]

/-- Witness for C1 at a concrete succeeding primary command. -/
theorem try_onfail_iff_primary_failure_witness :
    (Command.tryCmd "t" (.logger "cmd1") (.logger "cmd2")).run "testWorkflow"
      = (Command.logger "cmd1").run "testWorkflow"
    ∧ (tryRunDetail (.logger "cmd1") (.logger "cmd2") "testWorkflow").2 = false :=
  let h := try_onfail_iff_primary_failure "t" (.logger "cmd1") (.logger "cmd2") "testWorkflow"
  ⟨(h.2.2 rfl).1, (h.2.2 rfl).2.1⟩

/-- C2: when the TryCommand fails (transport error or `Success=false` result),
the Try invokes the fallback and returns the fallback's outcome unchanged;
the quantification over `c1` covers both Sync and Async primaries. -/
theorem try_failure_runs_fallback (d : String) (c1 c2 : Command) (w : String)
    (h : (c1.run w).err ≠ none ∨ ∃ cr, (c1.run w).res = some cr ∧ cr.success = false) :
    (Command.tryCmd d c1 c2).run w = c2.run w
    ∧ (tryRunDetail c1 c2 w).2 = true := by
  have hfail : (c1.run w).failed = true := by
    rcases hr : c1.run w with ⟨res, err⟩
    rw [hr] at h
    rcases h with herr | ⟨cr, hres, hcs⟩
    · cases err with
      | none => exact absurd rfl herr
      | some e => simp [RunResult.failed]
    · simp only at hres
      subst hres
      simp [RunResult.failed, hcs]
  constructor
  · show (if (c1.run w).failed then c2.run w else c1.run w) = c2.run w
    simp [hfail]
  · simp [tryRunDetail, hfail]

/-- Witness for C2: a sync `fail` primary falls back to the logger, whose result
is returned verbatim. -/
theorem try_failure_runs_fallback_witness :
    (Command.tryCmd "t" (.failc .sync) (.logger "cmd2")).run "testWorkflow"
      = (Command.logger "cmd2").run "testWorkflow"
    ∧ (tryRunDetail (.failc .sync) (.logger "cmd2") "testWorkflow").2 = true :=
  try_failure_runs_fallback "t" (.failc .sync) (.logger "cmd2") "testWorkflow"
    (Or.inr ⟨⟨false, "fail", none⟩, rfl, rfl⟩)

theorem runCommandSequence_ok_of_all_ok (w : String) :
    ∀ cmds : List Command, (∀ c ∈ cmds, (c.run w).failed = false) →
      (runCommandSequence cmds w).failed = false := by
  intro cmds h
  induction cmds with
  | nil => simp [runCommandSequence, RunResult.failed]
  | cons c rest ih =>
      have hc : (c.run w).failed = false := h c (List.mem_cons_self c rest)
      have hrest : ∀ x ∈ rest, (x.run w).failed = false := fun x hx =>
        h x (List.mem_cons_of_mem c hx)
      simp only [runCommandSequence, hc]
      simpa using ih hrest

theorem runCommandSequence_failed_of_plain_failure (w : String) :
    ∀ cmds : List Command,
      (∃ c ∈ cmds, c.isTryCommand = false ∧ (c.run w).failed = true) →
      (runCommandSequence cmds w).failed = true := by
  intro cmds h
  induction cmds with
  | nil => rcases h with ⟨c, hc, _⟩; cases hc
  | cons c rest ih =>
      by_cases hf : (c.run w).failed
      · simp [runCommandSequence, hf]
      · rcases h with ⟨x, hx, hxt, hxf⟩
        rcases List.mem_cons.mp hx with hx1 | hx2
        · subst hx1; rw [hxf] at hf; exact absurd rfl hf
        · have : (runCommandSequence rest w).failed = true := ih ⟨x, hx2, hxt, hxf⟩
          simp only [runCommandSequence]
          rw [if_neg (by simp [hf])]
          exact this

/-- C3: for an accepted install, the Progress Store entry goes
`INIT, IN_PROGRESS, FINISHED` when every workflow command succeeds, ends in
`ERROR` when some non-Try-wrapped command fails, and in either case the trace
is strictly monotone in the state order (so no state is revisited) and closes
with a terminal state that is never left. -/
theorem install_trace_state_machine (cmds : List Command) (w : String) :
    ((∀ c ∈ cmds, (c.run w).failed = false) →
        installTrace cmds w = [.INIT, .IN_PROGRESS, .FINISHED])
    ∧ ((∃ c ∈ cmds, c.isTryCommand = false ∧ (c.run w).failed = true) →
        installTrace cmds w = [.INIT, .IN_PROGRESS, .ERROR])
    ∧ List.Chain' (fun a b => stateRank a < stateRank b) (installTrace cmds w)
    ∧ (installTrace cmds w).Nodup
    ∧ ∃ final, installTrace cmds w = [.INIT, .IN_PROGRESS, final]
        ∧ (final = .FINISHED ∨ final = .ERROR) := by
  refine ⟨?_, ?_, ?_, ?_, ?_⟩
  · intro h
    simp [installTrace, runCommandSequence_ok_of_all_ok w cmds h]
  · intro h
    simp [installTrace, runCommandSequence_failed_of_plain_failure w cmds h]
  · by_cases hf : (runCommandSequence cmds w).failed <;>
      simp [installTrace, hf, stateRank]
  · by_cases hf : (runCommandSequence cmds w).failed <;>
      simp [installTrace, hf]
  · by_cases hf : (runCommandSequence cmds w).failed
    · exact ⟨.ERROR, by simp [installTrace, hf], Or.inr rfl⟩
    · exact ⟨.FINISHED, by simp [installTrace, hf], Or.inl rfl⟩

/-- Witness for C3 on a one-command workflow that succeeds and on a
one-command workflow that fails. -/
theorem install_trace_state_machine_witness :
    installTrace [.logger "a"] "wf" = [.INIT, .IN_PROGRESS, .FINISHED]
    ∧ installTrace [.failc .sync] "wf" = [.INIT, .IN_PROGRESS, .ERROR] :=
  ⟨(install_trace_state_machine [.logger "a"] "wf").1 (by decide),
   (install_trace_state_machine [.failc .sync] "wf").2.1
     ⟨.failc .sync, by decide, by decide, by decide⟩⟩

/-- C9: after a removal, and for never-created identifiers, CheckProgress fails
with NotFound; RemoveInstall on an unknown identifier also fails with NotFound;
and NotFound is distinct from returning an `ERROR` state. -/
theorem checkprogress_notfound_after_removal (s : ProgressStore) (id : String) :
    (s id = none →
        checkProgress s id = .error "NotFound" ∧ removeInstall s id = .error "NotFound")
    ∧ (∀ s2, removeInstall s id = .ok s2 → checkProgress s2 id = .error "NotFound")
    ∧ (Except.error "NotFound" : Except DError InstallState) ≠ .ok .ERROR := by
  refine ⟨?_, ?_, by simp⟩
  · intro h
    constructor <;> simp [checkProgress, removeInstall, h]
  · intro s2 h
    cases hs : s id with
    | none => simp [removeInstall, hs] at h
    | some st =>
        simp only [removeInstall, hs, Except.ok.injEq] at h
        subst h
        simp [checkProgress]

/-- Witness for C9 on a concrete store holding one entry. -/
theorem checkprogress_notfound_after_removal_witness :
    checkProgress (fun _ => none) "missing" = .error "NotFound"
    ∧ removeInstall (fun _ => none) "missing" = .error "NotFound"
    ∧ checkProgress
        (fun x => if x = "done" then none
                  else (fun y => if y = "done" then some InstallState.FINISHED else none) x)
        "done" = .error "NotFound" :=
  ⟨((checkprogress_notfound_after_removal (fun _ => none) "missing").1 rfl).1,
   ((checkprogress_notfound_after_removal (fun _ => none) "missing").1 rfl).2,
   (checkprogress_notfound_after_removal
       (fun y => if y = "done" then some InstallState.FINISHED else none) "done").2.1
     _ rfl⟩

theorem exclusiveChannels_res (cr : Option CommandResult) : exclusiveChannels ⟨cr, none⟩ :=
  ⟨fun h => absurd rfl h, fun _ _ _ => rfl⟩

theorem exclusiveChannels_err (e : DError) : exclusiveChannels ⟨none, some e⟩ :=
  ⟨fun _ => rfl, fun cr hcr _ => by cases hcr⟩

/-- C4 counterexample: `InstallIstio.Run` with a failing istioctl install step
returns a `Success=false` result together with a non-nil transport error, so
the two failure channels are not mutually exclusive for every command variant. -/
theorem run_channels_not_exclusive_counterexample :
    (InstallIstio.run ⟨"kc", "/istio", "appCluster", true, "", "/tmp", "dns.host"⟩
        ⟨none, none, none, some "istioctl failed", none, none⟩).err = some "istioctl failed"
    ∧ (InstallIstio.run ⟨"kc", "/istio", "appCluster", true, "", "/tmp", "dns.host"⟩
        ⟨none, none, none, some "istioctl failed", none, none⟩).res
      = some ⟨false, "impossible to install istio", some "istioctl failed"⟩
    ∧ ¬ exclusiveChannels
        (InstallIstio.run ⟨"kc", "/istio", "appCluster", true, "", "/tmp", "dns.host"⟩
          ⟨none, none, none, some "istioctl failed", none, none⟩) := by
  refine ⟨rfl, rfl, ?_⟩
  intro h
  have hres := h.1 (by simp [InstallIstio.run])
  simp [InstallIstio.run] at hres

/-- C4 amended: the failure channels of `Run` are mutually exclusive for
`CreateManagementConfig`, `InstallVpnServerLB`, `CreateRegistrySecrets` and
`LaunchComponents` (with `CreateManagementConfig` returning a transport error
only when the backend connection fails), but `InstallIstio.Run` sets both
channels whenever its istioctl install step fails after a successful
connection, namespace and secret setup. -/
theorem run_channels_amended :
    (∀ env : CMCEnv, exclusiveChannels (CreateManagementConfig.run env)
        ∧ ((CreateManagementConfig.run env).err ≠ none → env.connect ≠ none))
    ∧ (∀ (imd : InstallVpnServerLB) (env : VpnLBEnv), exclusiveChannels (imd.run env))
    ∧ (∀ (cmd : CreateRegistrySecrets) (env : CRSEnv), exclusiveChannels (cmd.run env))
    ∧ (∀ (lc : LaunchComponents) (env : LCEnv), exclusiveChannels (lc.run env))
    ∧ (∀ (i : InstallIstio) (env : IstioEnv) (e : DError),
        env.connect = none → env.createNamespace = none → env.createSecrets = none →
        (if i.isAppCluster then env.installInSlave else env.installInMaster) = some e →
        (i.run env).err = some e
        ∧ (i.run env).res = some ⟨false, "impossible to install istio", some e⟩) := by
  refine ⟨?_, ?_, ?_, ?_, ?_⟩
  · rintro ⟨c, ns, cm, ds, as⟩
    constructor
    · cases c <;> cases ns <;> cases cm <;> cases ds <;> cases as <;>
        first
          | exact exclusiveChannels_err _
          | exact exclusiveChannels_res _
    · cases c with
      | some e => intro _; simp
      | none =>
          intro h
          exfalso
          apply h
          cases ns <;> cases cm <;> cases ds <;> cases as <;> rfl
  · rintro imd ⟨c, cs⟩
    cases c with
    | some e => exact exclusiveChannels_err e
    | none =>
        show exclusiveChannels (if imd.platformType = "AZURE" then _ else _)
        split
        · cases cs <;> exact exclusiveChannels_res _
        · split
          · cases cs <;> exact exclusiveChannels_res _
          · split
            · cases cs <;> exact exclusiveChannels_res _
            · exact exclusiveChannels_res _
  · rintro cmd ⟨c, ns, es, dr⟩
    cases c with
    | some e => exact exclusiveChannels_err e
    | none =>
        cases ns with
        | some e => exact exclusiveChannels_res _
        | none =>
            show exclusiveChannels
              (match (if cmd.onManagementCluster || cmd.credentialsName = "nalej-public-registry"
                      then es else none) with
               | some e => ⟨some ⟨false, "cannot create environment secret", some e⟩, none⟩
               | none => _)
            split
            · exact exclusiveChannels_res _
            · show exclusiveChannels
                (match createDockerSecretsStep ⟨none, none, es, dr⟩ with
                 | some e => ⟨some ⟨false, "cannot create docker registry secret", some e⟩, none⟩
                 | none => ⟨some ⟨true, "management registry secret has been created", none⟩, none⟩)
              split
              · exact exclusiveChannels_res _
              · exact exclusiveChannels_res _
  · rintro lc ⟨c, te, cns, rd, lcf⟩
    cases c with
    | some e => exact exclusiveChannels_err e
    | none =>
        cases te with
        | false => exact exclusiveChannels_err _
        | true =>
            show exclusiveChannels
              (match createNamespacesLoop cns lc.namespaces with
               | some e => ⟨none, some e⟩
               | none => _)
            split
            · exact exclusiveChannels_err _
            · cases rd with
              | none => exact exclusiveChannels_err _
              | some files =>
                  show exclusiveChannels
                    (match launchLoop lcf (files.filter (fun f => strEndsWith f ".yaml")) with
                     | .error e => ⟨some ⟨false, "cannot launch component", some e⟩, none⟩
                     | .ok n => ⟨some ⟨true, toString n ++ " components have been launched", none⟩, none⟩)
                  split
                  · exact exclusiveChannels_res _
                  · exact exclusiveChannels_res _
  · rintro i ⟨c, ns, cs, sl, ms, gw⟩ e hc hns hcs hstep
    subst hc; subst hns; subst hcs
    show (match (if i.isAppCluster then sl else ms) with
          | some e => (⟨some ⟨false, "impossible to install istio", some e⟩, some e⟩ : RunResult)
          | none => ⟨some ⟨true, "istio has been installed successfully", none⟩, none⟩).err = some e
      ∧ (match (if i.isAppCluster then sl else ms) with
          | some e => (⟨some ⟨false, "impossible to install istio", some e⟩, some e⟩ : RunResult)
          | none => ⟨some ⟨true, "istio has been installed successfully", none⟩, none⟩).res
        = some ⟨false, "impossible to install istio", some e⟩
    rw [hstep]
    exact ⟨rfl, rfl⟩

/-- Witness for the amended C4 on concrete environments. -/
theorem run_channels_amended_witness :
    exclusiveChannels (CreateManagementConfig.run ⟨none, some "boom", none, none, none⟩)
    ∧ (InstallIstio.run ⟨"kc", "/istio", "app", true, "", "/tmp", "dns"⟩
        ⟨none, none, none, some "istioctl exited 1", none, none⟩).err = some "istioctl exited 1" :=
  ⟨(run_channels_amended.1 ⟨none, some "boom", none, none, none⟩).1,
   (run_channels_amended.2.2.2.2 ⟨"kc", "/istio", "app", true, "", "/tmp", "dns"⟩
      ⟨none, none, none, some "istioctl exited 1", none, none⟩ "istioctl exited 1"
      rfl rfl rfl rfl).1⟩

/-- C8 counterexample: `LaunchComponents.PrettyPrint` is not a pure,
never-failing rendering: it aborts when the components directory cannot be
read, and its output depends on the directory contents. -/
theorem prettyprint_effectful_counterexample :
    LaunchComponents.prettyPrint ⟨"kc", [], "/components", "MINIKUBE", "PRODUCTION"⟩
      ⟨none, true, fun _ => none, none, fun _ => none⟩ 0 = none
    ∧ LaunchComponents.prettyPrint ⟨"kc", [], "/components", "MINIKUBE", "PRODUCTION"⟩
        ⟨none, true, fun _ => none, some ["a.yaml"], fun _ => none⟩ 0
      ≠ LaunchComponents.prettyPrint ⟨"kc", [], "/components", "MINIKUBE", "PRODUCTION"⟩
        ⟨none, true, fun _ => none, some [], fun _ => none⟩ 0 := by
  refine ⟨rfl, ?_⟩
  decide

/-- C8 amended: `String()`, `PrettyPrint` and `UserString` are pure total
renderings for `CreateManagementConfig`, `InstallIstio`, `InstallVpnServerLB`
and `CreateRegistrySecrets`; `LaunchComponents.PrettyPrint` instead reads the
components directory, succeeding exactly when the directory listing is
available and aborting otherwise. -/
theorem rendering_purity_amended :
    (∀ (c : CreateManagementConfig) (n : Nat), c.prettyPrint n = spaces n ++ c.string)
    ∧ (∀ (i : InstallIstio) (n : Nat), i.prettyPrint n = spaces n ++ i.string)
    ∧ (∀ (imd : InstallVpnServerLB) (n : Nat), imd.prettyPrint n = spaces n ++ imd.string)
    ∧ (∀ (cmd : CreateRegistrySecrets) (n : Nat), cmd.prettyPrint n = spaces n ++ cmd.string)
    ∧ (∀ (lc : LaunchComponents) (env : LCEnv) (n : Nat),
        (env.readDir ≠ none → (lc.prettyPrint env n).isSome = true)
        ∧ (env.readDir = none → lc.prettyPrint env n = none)) := by
  refine ⟨fun _ _ => rfl, fun _ _ => rfl, fun _ _ => rfl, fun _ _ => rfl, ?_⟩
  rintro lc ⟨c, te, cns, rd, lcf⟩ n
  cases rd with
  | none => exact ⟨fun h => absurd rfl h, fun _ => rfl⟩
  | some files =>
      refine ⟨fun _ => rfl, fun h => ?_⟩
      cases h

/-- Witness for the amended C8 at a concrete command and filesystem. -/
theorem rendering_purity_amended_witness :
    (LaunchComponents.prettyPrint ⟨"kc", [], "/c", "MINIKUBE", "PRODUCTION"⟩
        ⟨none, true, fun _ => none, some ["x.yaml"], fun _ => none⟩ 2).isSome = true :=
  ((rendering_purity_amended.2.2.2.2 ⟨"kc", [], "/c", "MINIKUBE", "PRODUCTION"⟩
      ⟨none, true, fun _ => none, some ["x.yaml"], fun _ => none⟩ 2).1) (by simp)

/-- C10: for any platform type other than AZURE, BAREMETAL and MINIKUBE,
`InstallVpnServerLB.Run` after a successful connection returns a
`Success=false` result with message `unsupported platform type` and a nil
transport error. -/
theorem vpnlb_unsupported_platform (imd : InstallVpnServerLB) (env : VpnLBEnv)
    (ha : imd.platformType ≠ "AZURE") (hb : imd.platformType ≠ "BAREMETAL")
    (hm : imd.platformType ≠ "MINIKUBE") (hc : env.connect = none) :
    imd.run env = ⟨some ⟨false, "unsupported platform type", none⟩, none⟩ := by
  rcases env with ⟨c, cs⟩
  cases hc
  simp [InstallVpnServerLB.run, ha, hb, hm]

/-- Witness for C10 at the platform type GKE. -/
theorem vpnlb_unsupported_platform_witness :
    InstallVpnServerLB.run ⟨"kc", "GKE"⟩ ⟨none, none⟩
      = ⟨some ⟨false, "unsupported platform type", none⟩, none⟩ :=
  vpnlb_unsupported_platform ⟨"kc", "GKE"⟩ ⟨none, none⟩
    (by decide) (by decide) (by decide) rfl

/-- C6: the two-exec-command example source with a line comment parses, with
no template parameters, to a two-command Workflow whose first command has
`cmd = "cmd1"`; the comment is stripped before JSON decoding, and without the
stripping the raw source is not valid JSON. -/
theorem parse_basic_no_template :
    parseWorkflow basicDefinitionNoTemplate "TestParseWorkflow_Basic"
      = .ok ⟨"TestParseWorkflow_Basic", "basicDefinitionNoTemplate",
             [.exec "cmd1" [], .exec "cmd2" ["arg1"]]⟩
    ∧ (∃ e, parseJsonText basicDefinitionNoTemplate.toList = .error e) :=
  ⟨rfl, ⟨_, rfl⟩⟩

/-- C7: a JSON object carrying the Try discriminant with nested full command
objects under `cmd` and `onFail` decodes through the Registry to a Try whose
TryCommand and OnFailCommand are exactly the decodings of the nested
objects. -/
theorem try_json_roundtrip (f : Nat) (d : String) (j1 j2 : Json) (c1 c2 : Command)
    (h1 : decodeCommand f j1 = .ok c1) (h2 : decodeCommand f j2 = .ok c2) :
    decodeCommand (f + 1)
      (.obj [("type", .str "sync"), ("name", .str "try"), ("description", .str d),
             ("cmd", j1), ("onFail", j2)])
      = .ok (.tryCmd d c1 c2) := by
  show ((decodeCommand f j1).bind fun a =>
        (decodeCommand f j2).bind fun b =>
        Except.ok (Command.tryCmd d a b)) = .ok (.tryCmd d c1 c2)
  rw [h1, h2]
  rfl

/-- Expansion lemma for the iteration construct: rendering over a node list
produces one body instance per node at consecutive indices. -/
theorem renderIter_spec (params : Json) (body : List (String × TplField))
    (bj : Nat → String → Json)
    (hb : ∀ i n, renderCmd params (some (i, n)) body = .ok (bj i n)) :
    ∀ (k : Nat) (nodes : List String),
      renderIter params body k (nodes.map .str)
        = .ok ((enumFrom k nodes).map fun p => bj p.1 p.2) := by
  intro k nodes
  induction nodes generalizing k with
  | nil => rfl
  | cons n rest ih =>
      show ((renderCmd params (some (k, n)) body).bind fun c =>
            (renderIter params body (k + 1) (rest.map .str)).bind fun cs =>
            Except.ok (c :: cs)) = _
      rw [hb k n, ih (k + 1)]
      rfl

/-- Decoding a commands array succeeds elementwise. -/
theorem decodeCommandList_of_forall (fuel : Nat) (js : List Json) (cs : List Command)
    (h : List.Forall₂ (fun j c => decodeCommand fuel j = .ok c) js cs) :
    decodeCommandList fuel js = .ok cs := by
  induction h with
  | nil => rfl
  | cons hd _ ih =>
      show ((decodeCommand fuel _).bind fun c =>
            (decodeCommandList fuel _).bind fun l =>
            Except.ok (c :: l)) = _
      rw [hd, ih]
      rfl


/-- C5: a well-formed templated workflow source made of one fixed command plus
an iteration construct over a parameter sequence of N nodes parses to a
Workflow of exactly N+1 commands: the fixed command first, then one generated
command per node in sequence order, rendered at the zero-based index and node
value. -/
theorem template_iteration_parse (name desc : String)
    (fixed body : List (String × TplField)) (path : List String)
    (params : Json) (nodes : List String)
    (jfix : Json) (c0 : Command)
    (bj : Nat → String → Json) (gen : Nat → String → Command)
    (hpath : jpath params path = some (.arr (nodes.map .str)))
    (hfix : renderCmd params none fixed = .ok jfix)
    (hfixdec : decodeCommand defaultCommandDepth jfix = .ok c0)
    (hbody : ∀ i n, renderCmd params (some (i, n)) body = .ok (bj i n))
    (hbodydec : ∀ i n, decodeCommand defaultCommandDepth (bj i n) = .ok (gen i n)) :
    parseTemplatedWorkflow ⟨desc, [.one fixed, .iter path body]⟩ name params
      = .ok ⟨name, desc, c0 :: (enumFrom 0 nodes).map fun p => gen p.1 p.2⟩
    ∧ (c0 :: (enumFrom 0 nodes).map fun p => gen p.1 p.2).length = nodes.length + 1 := by
  have hlen : ∀ (k : Nat) (l : List String), (enumFrom k l).length = l.length := by
    intro k l
    induction l generalizing k with
    | nil => rfl
    | cons a as ih => simp [enumFrom, ih]
  have h1 : renderElems params [.one fixed, .iter path body]
      = .ok (jfix :: (enumFrom 0 nodes).map fun p => bj p.1 p.2) := by
    show ((renderCmd params none fixed).bind fun j =>
          (renderElems params [.iter path body]).bind fun js =>
          Except.ok (j :: js)) = _
    rw [hfix]
    show Except.bind
        (match jpath params path with
         | some (.arr ns) =>
             (renderIter params body 0 ns).bind fun gens =>
             (renderElems params []).bind fun js =>
             Except.ok (gens ++ js)
         | some _ => .error "TemplateError: iteration over a non-sequence"
         | none => .error "TemplateError: missing field") _ = _
    rw [hpath]
    show Except.bind
        ((renderIter params body 0 (nodes.map .str)).bind fun gens =>
         (renderElems params []).bind fun js =>
         Except.ok (gens ++ js)) _ = _
    rw [renderIter_spec params body bj hbody 0 nodes]
    show Except.ok ((((enumFrom 0 nodes).map fun p => bj p.1 p.2) ++ []) |> fun l => jfix :: l) = _
    simp
  have hall : ∀ l : List (Nat × String),
      List.Forall₂ (fun j c => decodeCommand defaultCommandDepth j = .ok c)
        (l.map fun p => bj p.1 p.2) (l.map fun p => gen p.1 p.2) := by
    intro l
    induction l with
    | nil => exact .nil
    | cons p rest ih => exact .cons (hbodydec p.1 p.2) ih
  have h2 : decodeCommandList defaultCommandDepth
        (jfix :: (enumFrom 0 nodes).map fun p => bj p.1 p.2)
      = .ok (c0 :: (enumFrom 0 nodes).map fun p => gen p.1 p.2) :=
    decodeCommandList_of_forall _ _ _ (.cons hfixdec (hall (enumFrom 0 nodes)))
  constructor
  · show ((renderElems params [.one fixed, .iter path body]).bind fun js =>
          (decodeCommandList defaultCommandDepth js).bind fun cs =>
          Except.ok (⟨name, desc, cs⟩ : Workflow)) = _
    rw [h1]
    show ((decodeCommandList defaultCommandDepth _).bind fun cs =>
          Except.ok (⟨name, desc, cs⟩ : Workflow)) = _
    rw [h2]
    rfl
  · simp [hlen]

/-- Witness for C5 at the iteration example template with two nodes. -/
theorem template_iteration_parse_witness :
    parseTemplatedWorkflow basicTemplateIteration "TestParseWorkflow_SimpleTemplate" testParameters
      = .ok ⟨"TestParseWorkflow_SimpleTemplate", "basicTemplateIteration",
             Command.exec "generalCmd" ["install-1", "cluster-1"]
               :: (enumFrom 0 ["10.1.1.0", "10.1.1.1"]).map
                    fun p => Command.exec ("cmd" ++ toString p.1) [p.2]⟩ :=
  (template_iteration_parse "TestParseWorkflow_SimpleTemplate" "basicTemplateIteration"
    basicTemplateIterationFixed basicTemplateIterationBody ["InstallRequest", "Nodes"]
    testParameters ["10.1.1.0", "10.1.1.1"]
    (.obj [("type", .str "sync"), ("name", .str "exec"), ("cmd", .str "generalCmd"),
           ("args", .arr [.str "install-1", .str "cluster-1"])])
    (.exec "generalCmd" ["install-1", "cluster-1"])
    (fun i n => .obj [("type", .str "sync"), ("name", .str "exec"),
                      ("cmd", .str ("cmd" ++ toString i)), ("args", .arr [.str n])])
    (fun i n => .exec ("cmd" ++ toString i) [n])
    rfl rfl rfl (fun _ _ => rfl) (fun _ _ => rfl)).1

/-- Witness for C7 at the Try JSON of the unit test. -/
theorem try_json_roundtrip_witness :
    decodeCommand 2
      (.obj [("type", .str "sync"), ("name", .str "try"), ("description", .str "Try"),
             ("cmd", .obj [("type", .str "sync"), ("name", .str "logger"),
                           ("msg", .str "This is a logging message")]),
             ("onFail", .obj [("type", .str "sync"), ("name", .str "logger"),
                              ("msg", .str "This is a logging message")])])
      = .ok (.tryCmd "Try" (.logger "This is a logging message")
               (.logger "This is a logging message")) :=
  try_json_roundtrip 1 "Try"
    (.obj [("type", .str "sync"), ("name", .str "logger"),
           ("msg", .str "This is a logging message")])
    (.obj [("type", .str "sync"), ("name", .str "logger"),
           ("msg", .str "This is a logging message")])
    (.logger "This is a logging message") (.logger "This is a logging message")
    rfl rfl

end Installer
